import Mathlib

/-
  Shallow embedding of krux/catchpoint-api-python (src/catchpoint.py).

  Conventions of the embedding:
  - Python datetimes are modelled by `DT`: whole seconds since the Unix epoch
    (as an integer, negative values reach back before 1970) plus a microsecond
    component. An aware datetime in a timezone is modelled by its local
    wall-clock seconds; the timezone database is a function from a zone name to
    an optional UTC offset in seconds (none for an unknown zone).
  - The HTTP transport (requests.request) is an explicit oracle
    `Request → Response`; the parsed JSON body of a response is supplied by the
    oracle as a `JVal` alongside the raw body text.
  - Exceptions and sys.exit are modelled with `Except PyErr`.
  - Methods of the `Catchpoint` class become functions from the client state
    plus the oracle and the current UTC time; mutation of `self` becomes the
    returned `client` field of an `Outcome`, which also records every
    dispatched request so that fail-fast (no network call) claims are statable.
  - The startTime comparison `startTime >= 0` follows Python 2 semantics, where
    any str compares greater than any int; the code base is Python 2
    (base64.b64encode is applied to a str).
-/

namespace CatchpointApi

/-- Python values that flow through the time-formatting helper: the endpoint
signatures accept either strings or integers for the time bounds. -/
inductive PyVal where
  | int (n : Int)
  | str (s : String)
  deriving DecidableEq, Repr

/-- Exceptions of the embedded program. `catchpointError` mirrors the single
exception class `CatchpointError` of the source; `systemExit` mirrors
`sys.exit(msg)`; the remaining constructors mirror the builtin Python
exceptions that the source can raise on malformed data. -/
inductive PyErr where
  | catchpointError (msg : String)
  | systemExit (msg : String)
  | keyError (key : String)
  | typeError (msg : String)
  | valueError (msg : String)
  deriving DecidableEq, Repr

/-- Parsed JSON values, as returned by `res.json()`. -/
inductive JVal where
  | null
  | bool (b : Bool)
  | num (n : Int)
  | str (s : String)
  | arr (elems : List JVal)
  | obj (fields : List (String × JVal))

/-- A single apostrophe character, used inside the verbatim error messages of
the source. -/
def apos : String := String.singleton (Char.ofNat 39)

/-- Datetime: whole seconds since the Unix epoch plus microseconds, mirroring
the second/microsecond split of Python datetimes. -/
structure DT where
  sec : Int
  usec : Nat
  deriving DecidableEq, Repr

/-- Mirrors `.replace(microsecond=0)`. -/
def DT.trunc (t : DT) : DT := ⟨t.sec, 0⟩

/-- Datetime comparison `a < b` (lexicographic on seconds then microseconds). -/
def dtLt (a b : DT) : Bool :=
  a.sec < b.sec || (a.sec == b.sec && decide (a.usec < b.usec))

/-- Mirrors `+ timedelta(seconds=s)`. -/
def dtAddSeconds (t : DT) (s : Int) : DT := ⟨t.sec + s, t.usec⟩

/-- Mirrors `+ timedelta(minutes=m)`. -/
def dtAddMinutes (t : DT) (m : Int) : DT := ⟨t.sec + 60 * m, t.usec⟩

/-- Days since 1970-01-01 of a proleptic-Gregorian civil date (the standard
era-based algorithm used by civil-time libraries). -/
def daysFromCivil (y m d : Int) : Int :=
  let y2 := if m ≤ 2 then y - 1 else y
  let era := Int.fdiv y2 400
  let yoe := y2 - era * 400
  let mp := Int.emod (m + 9) 12
  let doy := Int.fdiv (153 * mp + 2) 5 + d - 1
  let doe := yoe * 365 + Int.fdiv yoe 4 - Int.fdiv yoe 100 + doy
  era * 146097 + doe - 719468

/-- Civil date (year, month, day) of a count of days since 1970-01-01; the
inverse of `daysFromCivil`. -/
def civilFromDays (z0 : Int) : Int × Int × Int :=
  let z := z0 + 719468
  let era := Int.fdiv z 146097
  let doe := z - era * 146097
  let yoe := Int.fdiv (doe - Int.fdiv doe 1460 + Int.fdiv doe 36524 - Int.fdiv doe 146096) 365
  let y := yoe + era * 400
  let doy := doe - (365 * yoe + Int.fdiv yoe 4 - Int.fdiv yoe 100)
  let mp := Int.fdiv (5 * doy + 2) 153
  let d := doy - Int.fdiv (153 * mp + 2) 5 + 1
  let m := mp + (if mp < 10 then 3 else -9)
  (y + (if m ≤ 2 then 1 else 0), m, d)

/-- The decimal digit character of `n` modulo 10. -/
def digCh (n : Int) : Char :=
  match (Int.emod n 10).toNat with
  | 0 => Char.ofNat 48
  | 1 => Char.ofNat 49
  | 2 => Char.ofNat 50
  | 3 => Char.ofNat 51
  | 4 => Char.ofNat 52
  | 5 => Char.ofNat 53
  | 6 => Char.ofNat 54
  | 7 => Char.ofNat 55
  | 8 => Char.ofNat 56
  | _ => Char.ofNat 57

/-- Two zero-padded decimal digits, as printed by strftime for the month, day,
hour, minute and second fields (all below 100). -/
def pad2l (n : Int) : List Char := [digCh (Int.fdiv n 10), digCh n]

/-- Four zero-padded decimal digits, as printed by strftime for the year field
(datetime years lie in 1..9999). -/
def pad4l (n : Int) : List Char :=
  [digCh (Int.fdiv n 1000), digCh (Int.fdiv n 100), digCh (Int.fdiv n 10), digCh n]

/-- Mirrors `.strftime(fmtYmdHMS)` where the format is year-month-day, a
capital T, then hour:minute:second, each field zero padded and with no
timezone suffix. -/
def strf (t : DT) : String :=
  let days := Int.fdiv t.sec 86400
  let sod := Int.emod t.sec 86400
  let ymd := civilFromDays days
  String.mk
    (pad4l ymd.1 ++ [Char.ofNat 45] ++ pad2l ymd.2.1 ++ [Char.ofNat 45] ++ pad2l ymd.2.2 ++
      [Char.ofNat 84] ++ pad2l (Int.fdiv sod 3600) ++ [Char.ofNat 58] ++
      pad2l (Int.fdiv (Int.emod sod 3600) 60) ++ [Char.ofNat 58] ++ pad2l (Int.emod sod 60))

/-- Shape check for a 19-character timestamp: four digits, a hyphen, two
digits, a hyphen, two digits, a capital T, and three colon-separated pairs of
digits. -/
def timestampShapeList : List Char → Bool
  | [y1, y2, y3, y4, h1, mo1, mo2, h2, d1, d2, tc, hh1, hh2, c1, mi1, mi2, c2, s1, s2] =>
    y1.isDigit && y2.isDigit && y3.isDigit && y4.isDigit &&
    (h1 == Char.ofNat 45) && mo1.isDigit && mo2.isDigit && (h2 == Char.ofNat 45) &&
    d1.isDigit && d2.isDigit && (tc == Char.ofNat 84) &&
    hh1.isDigit && hh2.isDigit && (c1 == Char.ofNat 58) &&
    mi1.isDigit && mi2.isDigit && (c2 == Char.ofNat 58) &&
    s1.isDigit && s2.isDigit
  | _ => false

/-- A string has timestamp shape when its character list does. -/
def isTimestampShape (s : String) : Bool := timestampShapeList s.data

theorem data_mk (l : List Char) : (String.mk l).data = l := rfl

theorem digCh_isDigit (n : Int) : (digCh n).isDigit = true := by
  unfold digCh
  generalize (Int.emod n 10).toNat = m
  rcases m with _ | _ | _ | _ | _ | _ | _ | _ | _ | k <;> rfl

theorem strf_shape (t : DT) : isTimestampShape (strf t) = true := by
  simp only [strf, isTimestampShape, data_mk, pad4l, pad2l, List.cons_append, List.nil_append,
    timestampShapeList, digCh_isDigit]
  rfl

/-- Header dictionaries, modelled as partial maps from header name to value. -/
abbrev Headers : Type := String → Option String

/-- Dictionary membership test, mirroring the Python `in` operator. -/
def hmem (h : Headers) (k : String) : Bool := (h k).isSome

/-- Dictionary key deletion, mirroring `del h[k]`. -/
def hdel (h : Headers) (k : String) : Headers := fun x => if x == k then none else h x

/-- Dictionary key assignment, mirroring `h[k] = v`. -/
def hset (h : Headers) (k : String) (v : String) : Headers :=
  fun x => if x == k then some v else h x

/-- An HTTP response as seen through the requests library: status code, reason
phrase, raw body text, and the JSON-parsed body. -/
structure Response where
  status_code : Int
  reason : String
  content : String
  json : JVal

/-- An outbound HTTP request, with the arguments the source passes to
requests.request. -/
structure Request where
  method : String
  url : String
  params : Option (List (String × Option PyVal))
  data : Option (List (String × String))
  headers : Headers

/-- Lookup in a JSON object field list. -/
def jLookup : List (String × JVal) → String → Option JVal
  | [], _ => none
  | (k, v) :: rest, key => if k == key then some v else jLookup rest key

/-- Mirrors subscripting `j[key]` on a parsed JSON value: a KeyError when the
key is absent, a TypeError when the value is not an object. -/
def jGet (j : JVal) (key : String) : Except PyErr JVal :=
  match j with
  | .obj fields =>
    match jLookup fields key with
    | some v => .ok v
    | none => .error (.keyError key)
  | _ => .error (.typeError "object is not subscriptable")

/-- Coerces a JSON value that the source concatenates into a header string; a
non-string raises a TypeError as in Python. -/
def jStr : JVal → Except PyErr String
  | .str s => .ok s
  | _ => .error (.typeError "cannot concatenate str and non-str objects")

/-- Mirrors the builtin `int(...)` applied to a JSON value. -/
def jInt : JVal → Except PyErr Int
  | .num n => .ok n
  | .bool b => .ok (if b then 1 else 0)
  | .str s =>
    match s.toInt? with
    | some n => .ok n
    | none => .error (.valueError ("invalid literal for int: " ++ s))
  | .null => .error (.typeError "int argument must be a string or a number")
  | .arr _ => .error (.typeError "int argument must be a string or a number")
  | .obj _ => .error (.typeError "int argument must be a string or a number")

/-- One base64 alphabet character (RFC 4648) for a 6-bit value. -/
def b64Char (n : Nat) : Char :=
  if n < 26 then Char.ofNat (65 + n)
  else if n < 52 then Char.ofNat (97 + (n - 26))
  else if n < 62 then Char.ofNat (48 + (n - 52))
  else if n = 62 then Char.ofNat 43
  else Char.ofNat 47

/-- Base64 encoding of a byte list, with padding, as computed by
base64.b64encode. -/
def b64Bytes : List Nat → List Char
  | [] => []
  | [a] => [b64Char (a / 4), b64Char ((a % 4) * 16), Char.ofNat 61, Char.ofNat 61]
  | [a, b] => [b64Char (a / 4), b64Char ((a % 4) * 16 + b / 16), b64Char ((b % 16) * 4), Char.ofNat 61]
  | a :: b :: c :: rest =>
    [b64Char (a / 4), b64Char ((a % 4) * 16 + b / 16), b64Char ((b % 16) * 4 + c / 64),
      b64Char (c % 64)] ++ b64Bytes rest

/-- Mirrors `base64.b64encode` on a Python 2 str, reading each character as its
code point (the byte value in the ASCII range hit in practice). -/
def b64encode (s : String) : String := String.mk (b64Bytes (s.data.map Char.toNat))

/-- The client state of the `Catchpoint` class: construct: arguments plus the
mutable headers dictionary and cached token expiry. -/
structure Catchpoint where
  _client_id : String
  _client_secret : String
  _host : String
  _version : Int
  _headers : Headers
  _token_expires_on : DT

/-- Class attribute `DEFAULT_HOST`. -/
def DEFAULT_HOST : String := "io.catchpoint.com"

/-- Class attribute `DFFAULT_VERSION` (the misspelling is verbatim from the
source). -/
def DFFAULT_VERSION : Int := 1

/-- Class attribute for the token safety buffer, in seconds. -/
def TOKEN_EXPIRATION_SAFETY_BUFFER : Int := 60

/-- Result of `_TOKEN_URL_TEMPLATE.format(host=host)`. -/
def tokenUrl (host : String) : String := "https://" ++ host ++ "/ui/api/token"

/-- Result of `_URL_TEMPLATE.format(host=..., version=..., uri=...)`. -/
def fullUrl (c : Catchpoint) (uri : String) : String :=
  "https://" ++ c._host ++ "/ui/api/v" ++ toString c._version ++ "/" ++ uri

/-- Mirrors `__init__`: stores the credentials and configuration, seeds the
headers with the Accept entry, and sets the cached expiry to a date far in the
past (year MINYEAR = 1) so that a token is requested before the first call. -/
def Catchpoint.init (client_id client_secret host : String) (version : Int) : Catchpoint :=
  { _client_id := client_id
    _client_secret := client_secret
    _host := host
    _version := version
    _headers := fun k => if k == "Accept" then some "application/json" else none
    _token_expires_on := ⟨86400 * daysFromCivil 1 1 1, 0⟩ }

/-- The headers after the conditional `del self._headers["Authorization"]`
that precedes every token refresh. -/
def authStripped (c : Catchpoint) : Headers :=
  if hmem c._headers "Authorization" then hdel c._headers "Authorization" else c._headers

/-- The POST to the token endpoint issued during a refresh, with the
client-credentials grant in the form data and the stripped headers attached. -/
def theTokenRequest (c : Catchpoint) : Request :=
  { method := "POST"
    url := tokenUrl c._host
    params := none
    data := some [("grant_type", "client_credentials"), ("client_id", c._client_id),
      ("client_secret", c._client_secret)]
    headers := authStripped c }

/-- The error message a non-2xx response is wrapped in. -/
def mkErrMsg (status : Int) (reason body : String) : String :=
  toString status ++ " " ++ reason ++ " was returned. Body: " ++ body

/-- Outcome of a stateful operation: the requests it dispatched in order, the
client state after it, and its result or the exception it raised. -/
structure Outcome (α : Type) where
  requests : List Request
  client : Catchpoint
  result : Except PyErr α

/-- Mirrors `_make_request` applied to the response the transport produced: a
status code of 200 through 299 is success and yields the parsed JSON body;
anything else raises CatchpointError carrying status, reason and raw body. -/
def Catchpoint._make_request (res : Response) : Except PyErr JVal :=
  if res.status_code < 200 ∨ 299 < res.status_code then
    .error (.catchpointError (mkErrMsg res.status_code res.reason res.content))
  else
    .ok res.json

/-- Mirrors `_get_headers`: truncates the current UTC time to whole seconds,
and if the cached expiry is strictly before it, strips the Authorization
entry, POSTs the client-credentials grant to the token endpoint, stores the
bearer value (the base64 encoding of the access token) in the headers, and
caches the new expiry as now plus expires_in minus the safety buffer. Returns
the headers dictionary. -/
def Catchpoint._get_headers (c : Catchpoint) (nowUtc : DT) (tr : Request → Response) :
    Outcome Headers :=
  let now := DT.trunc nowUtc
  if dtLt c._token_expires_on now then
    let hs := authStripped c
    let c1 : Catchpoint := { c with _headers := hs }
    let req := theTokenRequest c
    match Catchpoint._make_request (tr req) with
    | .error e => ⟨[req], c1, .error e⟩
    | .ok auth_token =>
      match jGet auth_token "access_token" with
      | .error e => ⟨[req], c1, .error e⟩
      | .ok tokv =>
        match jStr tokv with
        | .error e => ⟨[req], c1, .error e⟩
        | .ok access_token =>
          let hs2 := hset hs "Authorization" ("Bearer " ++ b64encode access_token)
          let c2 : Catchpoint := { c1 with _headers := hs2 }
          match jGet auth_token "expires_in" with
          | .error e => ⟨[req], c2, .error e⟩
          | .ok einv =>
            match jInt einv with
            | .error e => ⟨[req], c2, .error e⟩
            | .ok ein =>
              let c3 : Catchpoint :=
                { c2 with _token_expires_on :=
                    dtAddSeconds now (ein - TOKEN_EXPIRATION_SAFETY_BUFFER) }
              ⟨[req], c3, .ok c3._headers⟩
  else ⟨[], c, .ok c._headers⟩

/-- Mirrors `_call`: obtains headers (possibly refreshing the token), then
dispatches the resource request to the full URL and runs it through
`_make_request`. On a refresh failure the exception propagates and no resource
request is dispatched. -/
def Catchpoint._call (c : Catchpoint) (nowUtc : DT) (tr : Request → Response)
    (method uri : String) (params : Option (List (String × Option PyVal))) : Outcome JVal :=
  let gh := Catchpoint._get_headers c nowUtc tr
  match gh.result with
  | .error e => ⟨gh.requests, gh.client, .error e⟩
  | .ok hs =>
    let req : Request :=
      { method := method, url := fullUrl c uri, params := params, data := none, headers := hs }
    ⟨gh.requests ++ [req], gh.client, Catchpoint._make_request (tr req)⟩

/-- Notion of the Python 2 comparison `v >= 0` used on startTime: an int
compares numerically, while a str compares greater than every int. -/
def py2GeZero : PyVal → Bool
  | .int n => decide (0 ≤ n)
  | .str _ => true

/-- Mirrors `isinstance(v, int)`. -/
def pvIsInt : PyVal → Bool
  | .int _ => true
  | .str _ => false

/-- Mirrors the Python equality test `v == "now"`. -/
def pvEqNow : PyVal → Bool
  | .str s => s == "now"
  | .int _ => false

/-- Mirrors `int(v)` on a time-bound value. -/
def pvToInt : PyVal → Except PyErr Int
  | .int n => .ok n
  | .str s =>
    match s.toInt? with
    | some n => .ok n
    | none => .error (.valueError ("invalid literal for int: " ++ s))

/-- The usage-error message for a bad relative startTime (verbatim). -/
def startErrMsg : String :=
  "When using relative times, startTime must be a negative number (number of minutes minus " ++
    apos ++ "now" ++ apos ++ ")."

/-- The usage-error message for an unknown timezone (verbatim). -/
def tzErrMsg (tz : String) : String :=
  "Unknown Timezone " ++ apos ++ tz ++ apos ++ "\n" ++
    "Use tz database format: http://en.wikipedia.org/wiki/List_of_tz_database_time_zones"

/-- Mirrors `_format_time`. When both bounds are present and the end is the
string "now": the start is validated (the source tests
`not isinstance(startTime, int) and startTime >= 0`, with the Python 2
ordering on mixed types), the current time in the named zone is truncated to
whole seconds, the start becomes that end plus startTime minutes, and both are
rendered by strftime. Otherwise the bounds pass through unchanged. The zone
database and the current UTC time are explicit parameters; `sys.exit(msg)`
becomes the `systemExit` error. -/
def Catchpoint._format_time (tzdb : String → Option Int) (nowUtc : DT)
    (startTime endTime : Option PyVal) (tz : String) :
    Except PyErr (Option PyVal × Option PyVal) :=
  match endTime, startTime with
  | some e, some s =>
    if pvEqNow e then
      if !(pvIsInt s) && py2GeZero s then
        .error (.systemExit startErrMsg)
      else
        match tzdb tz with
        | none => .error (.systemExit (tzErrMsg tz))
        | some off =>
          match pvToInt s with
          | .error err => .error err
          | .ok mins =>
            let endT := DT.trunc ⟨nowUtc.sec + off, nowUtc.usec⟩
            let startT := dtAddMinutes endT mins
            .ok (some (.str (strf startT)), some (.str (strf endT)))
    else .ok (startTime, endTime)
  | _, _ => .ok (startTime, endTime)

/-- Mirrors the `raw` endpoint: resolves the time bounds (a `sys.exit` there
propagates with nothing dispatched), then issues one GET with the bounds as
query parameters. -/
def Catchpoint.raw (c : Catchpoint) (nowUtc : DT) (tzdb : String → Option Int)
    (tr : Request → Response) (testid : String) (startTime endTime : Option PyVal)
    (tz : String) : Outcome JVal :=
  match Catchpoint._format_time tzdb nowUtc startTime endTime tz with
  | .error e => ⟨[], c, .error e⟩
  | .ok (s, e) =>
    Catchpoint._call c nowUtc tr "GET" ("performance/raw/" ++ testid)
      (some [("startTime", s), ("endTime", e)])

/-- Mirrors the `favorite_data` endpoint: resolves the time bounds, builds the
parameter dictionary only when both bounds are present (it is None otherwise),
then assigns the tests entry into it when a test set was supplied; with a None
dictionary that assignment raises a TypeError before any request is
dispatched. -/
def Catchpoint.favorite_data (c : Catchpoint) (nowUtc : DT) (tzdb : String → Option Int)
    (tr : Request → Response) (favid : String) (startTime endTime : Option PyVal)
    (tz : String) (tests : Option String) : Outcome JVal :=
  match Catchpoint._format_time tzdb nowUtc startTime endTime tz with
  | .error e => ⟨[], c, .error e⟩
  | .ok (s, e) =>
    let params : Option (List (String × Option PyVal)) :=
      match e, s with
      | some ev, some sv => some [("startTime", some sv), ("endTime", some ev)]
      | _, _ => none
    match tests with
    | none =>
      Catchpoint._call c nowUtc tr "GET" ("performance/favoriteCharts/" ++ favid ++ "/data")
        params
    | some t =>
      match params with
      | none => ⟨[], c, .error (.typeError "NoneType object does not support item assignment")⟩
      | some ps =>
        Catchpoint._call c nowUtc tr "GET" ("performance/favoriteCharts/" ++ favid ++ "/data")
          (some (ps ++ [("tests", some (.str t))]))

/-- Mirrors the `nodes` endpoint: a single parameterless GET. -/
def Catchpoint.nodes (c : Catchpoint) (nowUtc : DT) (tr : Request → Response) : Outcome JVal :=
  Catchpoint._call c nowUtc tr "GET" "nodes" none

/-- The number of token requests inside an outcome: the token refresh is the
only POST the library ever issues (every endpoint is a GET). -/
def tokenRequestCount {α : Type} (o : Outcome α) : Nat :=
  (o.requests.filter (fun r => r.method == "POST")).length

/-- A timezone database knowing only UTC, at offset zero. -/
def utcOnly : String → Option Int := fun s => if s == "UTC" then some 0 else none

/-- A timezone database that knows no zone at all. -/
def noZones : String → Option Int := fun _ => none

/-- A freshly constructed client with the default host and version. -/
def demoClient : Catchpoint := Catchpoint.init "cid" "csecret" DEFAULT_HOST DFFAULT_VERSION

/-- A transport whose every response is a successful token grant with
access_token "tok" and expires_in 120. -/
def tokenOkTransport : Request → Response :=
  fun _ => ⟨200, "OK", "", .obj [("access_token", .str "tok"), ("expires_in", .num 120)]⟩

/-- A transport whose every response is a 500 failure. -/
def failTransport : Request → Response := fun _ => ⟨500, "Server Error", "boom", .null⟩

theorem authStripped_auth_none (c : Catchpoint) : authStripped c "Authorization" = none := by
  unfold authStripped hdel hmem
  by_cases h : (c._headers "Authorization").isSome = true
  · rw [if_pos h]
    simp
  · rw [if_neg h]
    cases hx : c._headers "Authorization" with
    | none => rfl
    | some v => rw [hx] at h; simp at h

theorem get_headers_skip (c : Catchpoint) (t : DT) (tr : Request → Response)
    (h : dtLt c._token_expires_on (DT.trunc t) = false) :
    Catchpoint._get_headers c t tr = ⟨[], c, .ok c._headers⟩ := by
  simp only [Catchpoint._get_headers, h]
  rfl

theorem get_headers_refresh_ok (c : Catchpoint) (t : DT) (tr : Request → Response)
    (tok rsn body : String) (ein st : Int)
    (hexp : dtLt c._token_expires_on (DT.trunc t) = true)
    (hresp : tr (theTokenRequest c) =
      ⟨st, rsn, body, .obj [("access_token", .str tok), ("expires_in", .num ein)]⟩)
    (h2 : 200 ≤ st) (h3 : st ≤ 299) :
    Catchpoint._get_headers c t tr =
      ⟨[theTokenRequest c],
        { c with
            _headers := hset (authStripped c) "Authorization" ("Bearer " ++ b64encode tok),
            _token_expires_on :=
              dtAddSeconds (DT.trunc t) (ein - TOKEN_EXPIRATION_SAFETY_BUFFER) },
        .ok (hset (authStripped c) "Authorization" ("Bearer " ++ b64encode tok))⟩ := by
  have h4 : Catchpoint._make_request (tr (theTokenRequest c)) =
      .ok (.obj [("access_token", .str tok), ("expires_in", .num ein)]) := by
    rw [hresp]
    unfold Catchpoint._make_request
    rw [if_neg (by dsimp only; omega)]
  simp only [Catchpoint._get_headers, hexp, h4]
  rfl

theorem get_headers_refresh_fail (c : Catchpoint) (t : DT) (tr : Request → Response)
    (e : PyErr)
    (hexp : dtLt c._token_expires_on (DT.trunc t) = true)
    (hfail : Catchpoint._make_request (tr (theTokenRequest c)) = .error e) :
    Catchpoint._get_headers c t tr =
      ⟨[theTokenRequest c], { c with _headers := authStripped c }, .error e⟩ := by
  simp only [Catchpoint._get_headers, hexp, hfail]
  rfl

/-- C4: for every HTTP response handled by the request dispatcher, a status
code in 200..299 inclusive is success and the parsed JSON body is returned as
the result, while any status outside 200..299 raises a CatchpointError whose
message carries the status code, the reason phrase, and the raw response
body. -/
theorem c4_dispatcher_status_ranges (res : Response) :
    (200 ≤ res.status_code ∧ res.status_code ≤ 299 →
      Catchpoint._make_request res = .ok res.json) ∧
    (res.status_code < 200 ∨ 299 < res.status_code →
      Catchpoint._make_request res =
        .error (.catchpointError (mkErrMsg res.status_code res.reason res.content))) := by
  constructor
  · intro h
    unfold Catchpoint._make_request
    rw [if_neg (by omega)]
  · intro h
    unfold Catchpoint._make_request
    rw [if_pos h]

/-- Witness for C4: a 404 response surfaces the error with status 404 and the
original body, and a 200 response returns its parsed JSON body. -/
theorem c4_dispatcher_witness :
    Catchpoint._make_request ⟨404, "Not Found", "gone", .null⟩ =
      .error (.catchpointError "404 Not Found was returned. Body: gone") ∧
    Catchpoint._make_request ⟨200, "OK", "ok", .num 7⟩ = .ok (.num 7) := by
  constructor
  · exact (c4_dispatcher_status_ranges ⟨404, "Not Found", "gone", .null⟩).2 (by decide)
  · exact (c4_dispatcher_status_ranges ⟨200, "OK", "ok", .num 7⟩).1 (by decide)

/-- C5: with end "now", a negative integer start, a known timezone and a fixed
clock, the resolved end is the current time in that zone truncated to whole
seconds, the resolved start is that end plus start minutes, and both bounds
are rendered as 19-character timestamps (four year digits, hyphen, two month
digits, hyphen, two day digits, a capital T, and colon-separated hour, minute
and second pairs) with no timezone suffix. -/
theorem c5_relative_time_resolution (tzdb : String → Option Int) (nowUtc : DT)
    (off k : Int) (tz : String) (_hk : k < 0) (htz : tzdb tz = some off) :
    Catchpoint._format_time tzdb nowUtc (some (.int k)) (some (.str "now")) tz =
      .ok (some (.str (strf (dtAddMinutes (DT.trunc ⟨nowUtc.sec + off, nowUtc.usec⟩) k))),
           some (.str (strf (DT.trunc ⟨nowUtc.sec + off, nowUtc.usec⟩)))) ∧
    isTimestampShape (strf (dtAddMinutes (DT.trunc ⟨nowUtc.sec + off, nowUtc.usec⟩) k)) = true ∧
    isTimestampShape (strf (DT.trunc ⟨nowUtc.sec + off, nowUtc.usec⟩)) = true := by
  refine ⟨?_, strf_shape _, strf_shape _⟩
  simp only [Catchpoint._format_time, htz]
  rfl

/-- Witness for C5: at a fixed clock of 1700000000.25 seconds UTC, start -30
and end "now" in UTC resolve to now-minus-30-minutes and now, truncated to the
second and formatted without timezone suffix. -/
theorem c5_relative_time_witness :
    Catchpoint._format_time utcOnly ⟨1700000000, 250000⟩ (some (.int (-30)))
        (some (.str "now")) "UTC" =
      .ok (some (.str "2023-11-14T21:43:20"), some (.str "2023-11-14T22:13:20")) ∧
    isTimestampShape "2023-11-14T21:43:20" = true := by
  constructor
  · exact (c5_relative_time_resolution utcOnly ⟨1700000000, 250000⟩ 0 (-30) "UTC"
      (by decide) rfl).1
  · decide

/-- C1, code-bug evidence: the source tests
`not isinstance(startTime, int) and startTime >= 0`, so the non-negative
integer start 5 with end "now" passes validation (the conjunction is false for
every int), the resolver returns a window reaching five minutes into the
future, and the raw endpoint dispatches its requests (one token POST and one
data GET) instead of terminating. This contradicts the error message of the
source itself, which demands a negative startTime. -/
theorem c1_nonnegative_relative_start_not_rejected :
    Catchpoint._format_time utcOnly ⟨1700000000, 250000⟩ (some (.int 5))
        (some (.str "now")) "UTC" =
      .ok (some (.str "2023-11-14T22:18:20"), some (.str "2023-11-14T22:13:20")) ∧
    (Catchpoint.raw demoClient ⟨1700000000, 250000⟩ utcOnly tokenOkTransport "t1"
        (some (.int 5)) (some (.str "now")) "UTC").requests.length = 2 := ⟨rfl, rfl⟩

/-- C7 counterexample: a call to the resolver with end "now", an unknown
timezone, but an absent start does not fail at all; the bounds pass through
unchanged and the raw endpoint still dispatches its two requests, refuting the
claim for this input. -/
theorem c7_counterexample_absent_start_passes_through :
    Catchpoint._format_time noZones ⟨1700000000, 0⟩ none (some (.str "now")) "Bad/Zone" =
      .ok (none, some (.str "now")) ∧
    (Catchpoint.raw demoClient ⟨1700000000, 0⟩ noZones tokenOkTransport "t1" none
        (some (.str "now")) "Bad/Zone").requests.length = 2 := ⟨rfl, rfl⟩

/-- C7 as amended: with both bounds present, an integer start and end "now", an
unknown timezone makes the resolver exit with the descriptive message listing
the expected timezone-name format, and the invoking endpoint dispatches no
request at all. -/
theorem c7_unknown_timezone_fail_fast (tzdb : String → Option Int) (nowUtc : DT) (k : Int)
    (tz testid : String) (c : Catchpoint) (tr : Request → Response)
    (htz : tzdb tz = none) :
    Catchpoint._format_time tzdb nowUtc (some (.int k)) (some (.str "now")) tz =
      .error (.systemExit (tzErrMsg tz)) ∧
    Catchpoint.raw c nowUtc tzdb tr testid (some (.int k)) (some (.str "now")) tz =
      ⟨[], c, .error (.systemExit (tzErrMsg tz))⟩ := by
  have h1 : Catchpoint._format_time tzdb nowUtc (some (.int k)) (some (.str "now")) tz =
      .error (.systemExit (tzErrMsg tz)) := by
    simp only [Catchpoint._format_time, htz]
    rfl
  refine ⟨h1, ?_⟩
  unfold Catchpoint.raw
  rw [h1]

/-- Witness for C7 as amended: an unknown zone with a present integer start
exits with the timezone message and the raw endpoint issues nothing. -/
theorem c7_unknown_timezone_witness :
    Catchpoint.raw demoClient ⟨1700000000, 0⟩ noZones tokenOkTransport "t1" (some (.int (-30)))
        (some (.str "now")) "Bad/Zone" =
      ⟨[], demoClient, .error (.systemExit (tzErrMsg "Bad/Zone"))⟩ :=
  (c7_unknown_timezone_fail_fast noZones ⟨1700000000, 0⟩ (-30) "Bad/Zone" "t1" demoClient
    tokenOkTransport rfl).2

/-- C10: supplying a test-set override to favorite_data while either time
bound is absent raises a TypeError (the parameter dictionary is None when
either bound is absent, and the tests entry is then assigned into it) before
any request is dispatched. -/
theorem c10_tests_override_requires_both_bounds (c : Catchpoint) (nowUtc : DT)
    (tzdb : String → Option Int) (tr : Request → Response) (favid : String)
    (startTime endTime : Option PyVal) (tz : String) (tests : String)
    (hb : startTime = none ∨ endTime = none) :
    Catchpoint.favorite_data c nowUtc tzdb tr favid startTime endTime tz (some tests) =
      ⟨[], c, .error (.typeError "NoneType object does not support item assignment")⟩ := by
  rcases hb with h | h
  · subst h
    cases endTime with
    | none => rfl
    | some e => rfl
  · subst h
    cases startTime with
    | none => rfl
    | some s => rfl

/-- Witness for C10: a tests override with an absent start fails with the
TypeError and dispatches nothing. -/
theorem c10_tests_override_witness :
    Catchpoint.favorite_data demoClient ⟨1700000000, 0⟩ utcOnly tokenOkTransport "7" none
        (some (.str "now")) "UTC" (some "1,2") =
      ⟨[], demoClient, .error (.typeError "NoneType object does not support item assignment")⟩ :=
  c10_tests_override_requires_both_bounds demoClient ⟨1700000000, 0⟩ utcOnly tokenOkTransport
    "7" none (some (.str "now")) "UTC" "1,2" (Or.inl rfl)

/-- A client whose cached token expiry lies in the future of the demo clock. -/
def validClient : Catchpoint := { demoClient with _token_expires_on := ⟨2000000000, 0⟩ }

/-- A transport that answers POSTs with a successful token grant and GETs with
an empty JSON array. -/
def mixedTransport : Request → Response :=
  fun r =>
    if r.method == "POST" then
      ⟨200, "OK", "", .obj [("access_token", .str "tok"), ("expires_in", .num 120)]⟩
    else ⟨200, "OK", "", .arr []⟩

theorem get_headers_refresh_requests (c : Catchpoint) (t : DT) (tr : Request → Response)
    (h : dtLt c._token_expires_on (DT.trunc t) = true) :
    (Catchpoint._get_headers c t tr).requests = [theTokenRequest c] := by
  simp only [Catchpoint._get_headers, h, if_true]
  repeat' split
  all_goals rfl

theorem nodes_skip (c : Catchpoint) (t : DT) (tr : Request → Response)
    (h : dtLt c._token_expires_on (DT.trunc t) = false) :
    tokenRequestCount (Catchpoint.nodes c t tr) = 0 ∧ (Catchpoint.nodes c t tr).client = c := by
  have hs := get_headers_skip c t tr h
  constructor
  · simp only [Catchpoint.nodes, Catchpoint._call, hs]
    rfl
  · simp only [Catchpoint.nodes, Catchpoint._call, hs]

theorem nodes_refresh_ok (c : Catchpoint) (t : DT) (tr : Request → Response)
    (tok : String) (ein : Int)
    (h : dtLt c._token_expires_on (DT.trunc t) = true)
    (hresp : tr (theTokenRequest c) =
      ⟨200, "OK", "", .obj [("access_token", .str tok), ("expires_in", .num ein)]⟩) :
    tokenRequestCount (Catchpoint.nodes c t tr) = 1 ∧
    (Catchpoint.nodes c t tr).client =
      { c with
          _headers := hset (authStripped c) "Authorization" ("Bearer " ++ b64encode tok),
          _token_expires_on :=
            dtAddSeconds (DT.trunc t) (ein - TOKEN_EXPIRATION_SAFETY_BUFFER) } := by
  have hgo := get_headers_refresh_ok c t tr tok "OK" "" ein 200 h hresp (by norm_num)
    (by norm_num)
  constructor
  · simp only [Catchpoint.nodes, Catchpoint._call, hgo]
    rfl
  · simp only [Catchpoint.nodes, Catchpoint._call, hgo]

/-- C2 as amended: after a successful refresh the stored expiry is the
truncated current time plus expires_in minus the 60-second safety buffer; a
refresh is attempted on a call exactly when the stored expiry is strictly
earlier than the truncated current time; consequently a token obtained with
expires_in 120 is still treated as valid at exactly 120 - 60 seconds after
issuance and is treated as expired at every later truncated instant. -/
theorem c2_expiry_buffer_and_refresh_iff (c : Catchpoint) (t : DT) (tr : Request → Response)
    (tok rsn body : String) (ein st : Int)
    (hexp : dtLt c._token_expires_on (DT.trunc t) = true)
    (hresp : tr (theTokenRequest c) =
      ⟨st, rsn, body, .obj [("access_token", .str tok), ("expires_in", .num ein)]⟩)
    (h2 : 200 ≤ st) (h3 : st ≤ 299) :
    (Catchpoint._get_headers c t tr).client._token_expires_on =
      dtAddSeconds (DT.trunc t) (ein - TOKEN_EXPIRATION_SAFETY_BUFFER) ∧
    (∀ (c2 : Catchpoint) (t2 : DT) (tr2 : Request → Response),
      (Catchpoint._get_headers c2 t2 tr2).requests.length =
        if dtLt c2._token_expires_on (DT.trunc t2) = true then 1 else 0) ∧
    (ein = 120 → ∀ t2 : DT, t2.sec = t.sec + 60 →
      (Catchpoint._get_headers (Catchpoint._get_headers c t tr).client t2 tr).requests.length
        = 0) ∧
    (ein = 120 → ∀ t2 : DT, t.sec + 60 < t2.sec →
      (Catchpoint._get_headers (Catchpoint._get_headers c t tr).client t2 tr).requests.length
        = 1) := by
  have hgo := get_headers_refresh_ok c t tr tok rsn body ein st hexp hresp h2 h3
  have hclient : (Catchpoint._get_headers c t tr).client._token_expires_on =
      dtAddSeconds (DT.trunc t) (ein - TOKEN_EXPIRATION_SAFETY_BUFFER) := by
    rw [hgo]
  refine ⟨hclient, ?_, ?_, ?_⟩
  · intro c2 t2 tr2
    cases hdt : dtLt c2._token_expires_on (DT.trunc t2) with
    | false =>
      rw [get_headers_skip c2 t2 tr2 hdt]
      rfl
    | true =>
      rw [get_headers_refresh_requests c2 t2 tr2 hdt]
      rfl
  · intro h120 t2 ht2
    have hskip : dtLt (Catchpoint._get_headers c t tr).client._token_expires_on
        (DT.trunc t2) = false := by
      rw [hclient]
      subst h120
      simp [dtLt, DT.trunc, dtAddSeconds, TOKEN_EXPIRATION_SAFETY_BUFFER, ht2]
    rw [get_headers_skip _ t2 tr hskip]
    rfl
  · intro h120 t2 ht2
    have href : dtLt (Catchpoint._get_headers c t tr).client._token_expires_on
        (DT.trunc t2) = true := by
      rw [hclient]
      subst h120
      simp only [dtLt, DT.trunc, dtAddSeconds, TOKEN_EXPIRATION_SAFETY_BUFFER]
      simp only [Bool.or_eq_true, decide_eq_true_eq]
      left
      omega
    rw [get_headers_refresh_requests _ t2 tr href]
    rfl

/-- C2 counterexample: with expires_in 120 a token issued at truncated time
1700000000 is still treated as valid at 1700000060 (exactly 120 - 60 seconds
after issuance): the second call attempts no token request there, so the token
is not treated as expired exactly 60 seconds after issuance. -/
theorem c2_counterexample_still_valid_at_buffer_boundary :
    (Catchpoint._get_headers demoClient ⟨1700000000, 0⟩
        tokenOkTransport).client._token_expires_on = ⟨1700000060, 0⟩ ∧
    (Catchpoint._get_headers
        (Catchpoint._get_headers demoClient ⟨1700000000, 0⟩ tokenOkTransport).client
        ⟨1700000060, 0⟩ tokenOkTransport).requests.length = 0 := ⟨rfl, rfl⟩

/-- Witness for C2 as amended: a concrete successful refresh at time
1700000000 with expires_in 120 stores expiry 1700000060, attempts no refresh
at 1700000060, and attempts one at 1700000061. -/
theorem c2_expiry_buffer_witness :
    (Catchpoint._get_headers demoClient ⟨1700000000, 0⟩
        tokenOkTransport).client._token_expires_on = ⟨1700000060, 0⟩ ∧
    (Catchpoint._get_headers
        (Catchpoint._get_headers demoClient ⟨1700000000, 0⟩ tokenOkTransport).client
        ⟨1700000060, 0⟩ tokenOkTransport).requests.length = 0 ∧
    (Catchpoint._get_headers
        (Catchpoint._get_headers demoClient ⟨1700000000, 0⟩ tokenOkTransport).client
        ⟨1700000061, 0⟩ tokenOkTransport).requests.length = 1 := by
  have h := c2_expiry_buffer_and_refresh_iff demoClient ⟨1700000000, 0⟩ tokenOkTransport
    "tok" "OK" "" 120 200 (by decide) rfl (by norm_num) (by norm_num)
  exact ⟨h.1, h.2.2.1 rfl ⟨1700000060, 0⟩ (by norm_num), h.2.2.2 rfl ⟨1700000061, 0⟩ (by norm_num)⟩

/-- C3 counterexample: a successful refresh whose response carries the access
token "tok" stores the Authorization value "Bearer dG9r" (the base64 encoding
of the token), not "Bearer tok" as the claim states. -/
theorem c3_counterexample_bearer_is_base64 :
    (Catchpoint._get_headers demoClient ⟨1700000000, 0⟩ tokenOkTransport).client._headers
        "Authorization" = some "Bearer dG9r" ∧
    ("Bearer dG9r" : String) ≠ "Bearer " ++ "tok" := ⟨rfl, by decide⟩

/-- C3 as amended: after every successful token refresh the headers mapping
contains the entry Authorization whose value is the string "Bearer " followed
by the base64 encoding of the access_token extracted from the token response
body, and that headers mapping is what the refresh returns. -/
theorem c3_auth_header_stores_b64_bearer (c : Catchpoint) (t : DT) (tr : Request → Response)
    (tok rsn body : String) (ein st : Int)
    (hexp : dtLt c._token_expires_on (DT.trunc t) = true)
    (hresp : tr (theTokenRequest c) =
      ⟨st, rsn, body, .obj [("access_token", .str tok), ("expires_in", .num ein)]⟩)
    (h2 : 200 ≤ st) (h3 : st ≤ 299) :
    (Catchpoint._get_headers c t tr).client._headers "Authorization" =
      some ("Bearer " ++ b64encode tok) ∧
    (Catchpoint._get_headers c t tr).result =
      .ok (Catchpoint._get_headers c t tr).client._headers := by
  have hgo := get_headers_refresh_ok c t tr tok rsn body ein st hexp hresp h2 h3
  rw [hgo]
  constructor
  · simp [hset]
  · rfl

/-- Witness for C3 as amended: the concrete refresh stores exactly
"Bearer " followed by the base64 encoding of "tok". -/
theorem c3_auth_header_witness :
    (Catchpoint._get_headers demoClient ⟨1700000000, 0⟩ tokenOkTransport).client._headers
        "Authorization" = some ("Bearer " ++ b64encode "tok") :=
  (c3_auth_header_stores_b64_bearer demoClient ⟨1700000000, 0⟩ tokenOkTransport "tok" "OK" ""
    120 200 (by decide) rfl (by norm_num) (by norm_num)).1

/-- C6: on every refresh attempt the Authorization entry is removed before the
token request is issued (the dispatched token request itself carries no
Authorization header), and when the refresh fails the error propagates while
the headers mapping still contains no Authorization entry, so no stale token
can be sent afterwards. -/
theorem c6_failed_refresh_leaves_no_auth_header (c : Catchpoint) (t : DT)
    (tr : Request → Response) (e : PyErr)
    (hexp : dtLt c._token_expires_on (DT.trunc t) = true)
    (hfail : Catchpoint._make_request (tr (theTokenRequest c)) = .error e) :
    (theTokenRequest c).headers "Authorization" = none ∧
    Catchpoint._get_headers c t tr =
      ⟨[theTokenRequest c], { c with _headers := authStripped c }, .error e⟩ ∧
    (Catchpoint._get_headers c t tr).client._headers "Authorization" = none := by
  refine ⟨authStripped_auth_none c, get_headers_refresh_fail c t tr e hexp hfail, ?_⟩
  rw [get_headers_refresh_fail c t tr e hexp hfail]
  exact authStripped_auth_none c

/-- Witness for C6: a concrete failed refresh (500 from the token endpoint)
propagates the CatchpointError and leaves no Authorization header. -/
theorem c6_failed_refresh_witness :
    (theTokenRequest demoClient).headers "Authorization" = none ∧
    (Catchpoint._get_headers demoClient ⟨1700000000, 0⟩ failTransport).result =
      .error (.catchpointError "500 Server Error was returned. Body: boom") ∧
    (Catchpoint._get_headers demoClient ⟨1700000000, 0⟩ failTransport).client._headers
      "Authorization" = none := by
  have h := c6_failed_refresh_leaves_no_auth_header demoClient ⟨1700000000, 0⟩ failTransport
    (.catchpointError "500 Server Error was returned. Body: boom") (by decide) rfl
  exact ⟨h.1, by rw [h.2.1], h.2.2⟩

/-- C8: a fresh client refreshes on the first endpoint call (exactly one token
request, the only POST in the trace); any further call at a truncated time not
strictly beyond the stored expiry issues zero token requests and leaves the
client state unchanged (so the same holds for every call inside the validity
window); and a call at a truncated time strictly beyond the stored expiry
issues exactly one more token request. -/
theorem c8_token_refresh_trace (cid cs host : String) (ver : Int) (tok : String) (ein : Int)
    (t1 : DT) (tr : Request → Response)
    (htr : ∀ r : Request, r.method = "POST" →
      tr r = ⟨200, "OK", "", .obj [("access_token", .str tok), ("expires_in", .num ein)]⟩)
    (h1 : dtLt (Catchpoint.init cid cs host ver)._token_expires_on (DT.trunc t1) = true) :
    tokenRequestCount (Catchpoint.nodes (Catchpoint.init cid cs host ver) t1 tr) = 1 ∧
    (∀ t2 : DT,
      dtLt (Catchpoint.nodes (Catchpoint.init cid cs host ver) t1 tr).client._token_expires_on
          (DT.trunc t2) = false →
      tokenRequestCount (Catchpoint.nodes
          (Catchpoint.nodes (Catchpoint.init cid cs host ver) t1 tr).client t2 tr) = 0 ∧
      (Catchpoint.nodes
          (Catchpoint.nodes (Catchpoint.init cid cs host ver) t1 tr).client t2 tr).client =
        (Catchpoint.nodes (Catchpoint.init cid cs host ver) t1 tr).client) ∧
    (∀ t3 : DT,
      dtLt (Catchpoint.nodes (Catchpoint.init cid cs host ver) t1 tr).client._token_expires_on
          (DT.trunc t3) = true →
      tokenRequestCount (Catchpoint.nodes
          (Catchpoint.nodes (Catchpoint.init cid cs host ver) t1 tr).client t3 tr) = 1) := by
  refine ⟨(nodes_refresh_ok _ t1 tr tok ein h1 (htr _ rfl)).1, ?_, ?_⟩
  · intro t2 h2
    exact nodes_skip _ t2 tr h2
  · intro t3 h3
    exact (nodes_refresh_ok _ t3 tr tok ein h3 (htr _ rfl)).1

/-- Witness for C8: with a concrete transport granting 120-second tokens, the
first call at 1700000000 issues one token request, a call at 1700000060 (still
inside the validity window) issues zero, and a call at 1700000061 (beyond the
stored expiry) issues one more. -/
theorem c8_token_refresh_trace_witness :
    tokenRequestCount (Catchpoint.nodes (Catchpoint.init "cid" "csecret" DEFAULT_HOST 1)
        ⟨1700000000, 0⟩ mixedTransport) = 1 ∧
    tokenRequestCount (Catchpoint.nodes
        (Catchpoint.nodes (Catchpoint.init "cid" "csecret" DEFAULT_HOST 1) ⟨1700000000, 0⟩
          mixedTransport).client ⟨1700000060, 0⟩ mixedTransport) = 0 ∧
    tokenRequestCount (Catchpoint.nodes
        (Catchpoint.nodes (Catchpoint.init "cid" "csecret" DEFAULT_HOST 1) ⟨1700000000, 0⟩
          mixedTransport).client ⟨1700000061, 0⟩ mixedTransport) = 1 := by
  have h := c8_token_refresh_trace "cid" "csecret" DEFAULT_HOST 1 "tok" 120 ⟨1700000000, 0⟩
    mixedTransport (by intro r hr; simp [mixedTransport, hr]) (by decide)
  exact ⟨h.1, (h.2.1 ⟨1700000060, 0⟩ (by decide)).1, h.2.2 ⟨1700000061, 0⟩ (by decide)⟩

/-- C9 counterexample: a fresh client whose token request fails with a 500 and
a token-valid client whose resource call fails with the same 500 raise exactly
the same error value (the single CatchpointError kind), even though the first
run dispatched only the token POST and the second only the resource GET: the
kind of the raised error does not identify which request failed. -/
theorem c9_counterexample_same_error_both_paths :
    (Catchpoint.nodes demoClient ⟨1700000000, 0⟩ failTransport).result =
      (Catchpoint.nodes validClient ⟨1700000000, 0⟩ failTransport).result ∧
    (Catchpoint.nodes demoClient ⟨1700000000, 0⟩ failTransport).requests.map
      (fun r => r.method) = ["POST"] ∧
    (Catchpoint.nodes validClient ⟨1700000000, 0⟩ failTransport).requests.map
      (fun r => r.method) = ["GET"] := ⟨rfl, rfl, rfl⟩

/-- C9 as amended: the library raises the single error kind CatchpointError
both when the token request fails and when a resource call returns a non-2xx
status; the error carries status, reason and body, and the same failing
response yields the identical error value on either path, so the error does
not identify whether the token refresh or the resource call failed. -/
theorem c9_single_error_kind (c c2 : Catchpoint) (t t2 : DT) (tr : Request → Response)
    (res : Response)
    (hbad : res.status_code < 200 ∨ 299 < res.status_code)
    (htr : ∀ r : Request, tr r = res)
    (hfresh : dtLt c._token_expires_on (DT.trunc t) = true)
    (hvalid : dtLt c2._token_expires_on (DT.trunc t2) = false) :
    (Catchpoint.nodes c t tr).result =
      .error (.catchpointError (mkErrMsg res.status_code res.reason res.content)) ∧
    (Catchpoint.nodes c2 t2 tr).result =
      .error (.catchpointError (mkErrMsg res.status_code res.reason res.content)) ∧
    (Catchpoint.nodes c t tr).requests.map (fun r => r.method) = ["POST"] ∧
    (Catchpoint.nodes c2 t2 tr).requests.map (fun r => r.method) = ["GET"] := by
  have hmr : ∀ r : Request, Catchpoint._make_request (tr r) =
      .error (.catchpointError (mkErrMsg res.status_code res.reason res.content)) := by
    intro r
    rw [htr r]
    unfold Catchpoint._make_request
    rw [if_pos hbad]
  have hA := get_headers_refresh_fail c t tr _ hfresh (hmr _)
  have hB := get_headers_skip c2 t2 tr hvalid
  refine ⟨?_, ?_, ?_, ?_⟩
  · simp only [Catchpoint.nodes, Catchpoint._call, hA]
  · simp only [Catchpoint.nodes, Catchpoint._call, hB]
    exact hmr _
  · simp only [Catchpoint.nodes, Catchpoint._call, hA]
    rfl
  · simp only [Catchpoint.nodes, Catchpoint._call, hB]
    rfl

/-- Witness for C9 as amended: the concrete 500 failure produces the identical
CatchpointError on the token path and on the resource path. -/
theorem c9_single_error_kind_witness :
    (Catchpoint.nodes demoClient ⟨1700000000, 0⟩ failTransport).result =
      .error (.catchpointError "500 Server Error was returned. Body: boom") ∧
    (Catchpoint.nodes validClient ⟨1700000000, 0⟩ failTransport).result =
      .error (.catchpointError "500 Server Error was returned. Body: boom") := by
  have h := c9_single_error_kind demoClient validClient ⟨1700000000, 0⟩ ⟨1700000000, 0⟩
    failTransport ⟨500, "Server Error", "boom", .null⟩ (by decide) (fun _ => rfl) (by decide)
    (by decide)
  exact ⟨h.1, h.2.1⟩

end CatchpointApi
